import Mathlib

/-!
Shallow embedding of `src/static/script.js` of the Daily_tracker repository:
the browser-side controller of a habit-checklist application.

Modelling conventions:
- each DOM region is modelled by the data that its `innerHTML` assignment
  sites interpolate; a load operation returns `none` for its region when no
  assignment runs (the region keeps whatever content it had);
- a network call is modelled by an explicit outcome value (`ReadOutcome`,
  `PostOutcome`) covering the promise rejecting, a non-2xx response, and a
  2xx response with a parsed body;
- host locale formatting (`toLocaleDateString`) is threaded as an explicit
  function argument, since its output is environment behaviour;
- `setTimeout` is modelled by explicit fire times on a timeline of events;
- JS numbers carried by reports are modelled as rationals, and the seven
  checkbox booleans as `Bool`.
-/

namespace DailyTracker

/-- The seven task checkboxes of the daily form (elements `#gym` … `#aws`). -/
structure Checkboxes where
  gym : Bool
  dsa : Bool
  ml : Bool
  django : Bool
  sql : Bool
  project_work : Bool
  aws : Bool
deriving DecidableEq, Repr

/-- `clearForm()`: sets every checkbox's `checked` to `false`. -/
def clearForm : Checkboxes :=
  { gym := false, dsa := false, ml := false, django := false, sql := false,
    project_work := false, aws := false }

/-- Severity tag passed to `showToast(message, type)`; default is `info`. -/
inductive ToastType
  | success
  | error
  | info
deriving DecidableEq, Repr

/-- One call to `showToast`: the message and severity it was given. -/
structure ToastCall where
  message : String
  ty : ToastType
deriving DecidableEq, Repr

/-- The five read operations of the controller. -/
inductive ReadOp
  | todayStatus
  | stats
  | weekly
  | monthly
  | history
deriving DecidableEq, Repr

/-- Outcome of a `fetch` in one of the read operations: `networkThrow` means
an exception reached the surrounding `catch` (the fetch rejected, or
`response.json()` threw); `httpError` means a response arrived with
`response.ok` false (non-2xx); `success` means `response.ok` with a parsed
JSON body. -/
inductive ReadOutcome (α : Type)
  | networkThrow
  | httpError
  | success (data : α)
deriving DecidableEq, Repr

/-! ### Submit handler (`dailyForm` submit listener) -/

/-- Outcome of the `POST /api/daily/` fetch inside the submit handler.
`errResponse detail` is a non-2xx response whose body parsed as JSON with the
given optional `detail` field; `errUnparseable` is a non-2xx response whose
body failed to parse (`response.json()` threw, landing in the `catch`);
`throws` is the fetch itself rejecting. -/
inductive PostOutcome
  | throws
  | ok2xx
  | errResponse (detail : Option String)
  | errUnparseable
deriving DecidableEq, Repr

/-- JS template-literal interpolation of a possibly-absent object field:
an absent `detail` prints as `undefined`. -/
def jsField (d : Option String) : String := d.getD "undefined"

/-- Net effect of one run of the submit handler: the toast it shows, the
checkbox state it leaves behind, and the read operations it triggers. -/
structure SubmitResult where
  toast : ToastCall
  checkboxes : Checkboxes
  reads : List ReadOp
deriving DecidableEq, Repr

/-- The `dailyForm` submit handler (script.js lines 54-90), given the
pre-submission checkbox state and the outcome of the POST.  On `response.ok`
it toasts success, calls `clearForm()` and triggers the five loads; on a
non-2xx response it toasts `Error: ${error.detail}`; if an exception reaches
the `catch` it toasts the fixed network-error message.  The form is only
touched on the success path. -/
def dailyFormSubmit (pre : Checkboxes) (o : PostOutcome) : SubmitResult :=
  match o with
  | .ok2xx =>
      { toast := { message := "Checklist saved successfully!", ty := .success },
        checkboxes := clearForm,
        reads := [.todayStatus, .stats, .weekly, .monthly, .history] }
  | .errResponse detail =>
      { toast := { message := "Error: " ++ jsField detail, ty := .error },
        checkboxes := pre,
        reads := [] }
  | .errUnparseable =>
      { toast := { message := "Network error. Please check if server is running.", ty := .error },
        checkboxes := pre,
        reads := [] }
  | .throws =>
      { toast := { message := "Network error. Please check if server is running.", ty := .error },
        checkboxes := pre,
        reads := [] }

/-! ### `loadStats` (`GET /api/stats/`, script.js lines 102-127) -/

/-- Parsed `/api/stats/` body; `total_weeks_reported` and
`total_months_reported` may be absent (the template applies `|| 0`). -/
structure Stats where
  total_days_tracked : Nat
  total_weeks_reported : Option Nat
  total_months_reported : Option Nat
deriving DecidableEq, Repr

/-- Content the `#stats` region can be assigned: the stats template with the
three displayed counters, or the `<p>Loading...</p>` placeholder written by
the `catch` branch. -/
inductive StatsContent
  | rendered (daysTracked weeksReported monthsReported : Nat)
  | loadingMsg
deriving DecidableEq, Repr

/-- `loadStats()`: on success renders the three counters (absent counters
default to 0 via `|| 0`); a non-2xx response runs no assignment (there is no
`else` branch); an exception writes the `<p>Loading...</p>` placeholder.
No branch calls `showToast`. -/
def loadStats (o : ReadOutcome Stats) : Option StatsContent × List ToastCall :=
  match o with
  | .success s =>
      (some (.rendered s.total_days_tracked (s.total_weeks_reported.getD 0)
        (s.total_months_reported.getD 0)), [])
  | .httpError => (none, [])
  | .networkThrow => (some .loadingMsg, [])

/-! ### `loadTodayStatus` (`GET /api/today`, script.js lines 129-184) -/

/-- Parsed `/api/today` body: the seven task booleans plus the `exists` flag
(spelled `exists'` here because `exists` is reserved in Lean). -/
structure TodayData where
  gym : Bool
  dsa : Bool
  ml : Bool
  django : Bool
  sql : Bool
  project_work : Bool
  aws : Bool
  exists' : Bool
deriving DecidableEq, Repr

/-- Content the `#todayStatus` region can be assigned: the seven
completed/pending status items, determined by the seven booleans. -/
inductive TodayContent
  | statusHtml (gym dsa ml django sql project_work aws : Bool)
deriving DecidableEq, Repr

/-- Net effect of one run of `loadTodayStatus`. -/
structure TodayResult where
  region : Option TodayContent
  checkboxes : Checkboxes
  toasts : List ToastCall
deriving DecidableEq, Repr

/-- `loadTodayStatus()`: on success renders the status grid, then populates
the form checkboxes from the payload when `data.exists` is truthy and calls
`clearForm()` otherwise; a non-2xx response runs no assignment; the `catch`
only logs (its fallback HTML is omitted in the source).  No branch calls
`showToast`. -/
def loadTodayStatus (pre : Checkboxes) (o : ReadOutcome TodayData) : TodayResult :=
  match o with
  | .success d =>
      { region := some (.statusHtml d.gym d.dsa d.ml d.django d.sql d.project_work d.aws),
        checkboxes :=
          if d.exists' then
            { gym := d.gym, dsa := d.dsa, ml := d.ml, django := d.django, sql := d.sql,
              project_work := d.project_work, aws := d.aws }
          else clearForm,
        toasts := [] }
  | .httpError => { region := none, checkboxes := pre, toasts := [] }
  | .networkThrow => { region := none, checkboxes := pre, toasts := [] }

/-! ### `loadHistory` (`GET /api/daily/`, script.js lines 186-234) -/

/-- One history entry returned by `GET /api/daily/`. -/
structure HistoryItem where
  date : String
  gym : Bool
  dsa : Bool
  ml : Bool
  django : Bool
  sql : Bool
  project_work : Bool
  aws : Bool
deriving DecidableEq, Repr

/-- The `completedTasks` array built for one history item: one push per true
task flag, in source order. -/
def completedTasks (it : HistoryItem) : List String :=
  (if it.gym then ["GYM"] else []) ++
  (if it.dsa then ["DSA"] else []) ++
  (if it.ml then ["ML"] else []) ++
  (if it.django then ["Django"] else []) ++
  (if it.sql then ["SQL"] else []) ++
  (if it.project_work then ["Project"] else []) ++
  (if it.aws then ["AWS"] else [])

/-- One rendered history row: the locale-formatted date and the completed-task
badge names (an empty list renders the single "No tasks completed" badge). -/
structure RenderedHistoryItem where
  dateText : String
  tasks : List String
deriving DecidableEq, Repr

/-- Rendering of one history item; `fmt` is the host's
`toLocaleDateString` formatting of `item.date`. -/
def renderHistoryItem (fmt : String → String) (it : HistoryItem) : RenderedHistoryItem :=
  { dateText := fmt it.date, tasks := completedTasks it }

/-- Content the `#historyList` region can be assigned: the
`<p>No history found.</p>` empty state, the rendered rows, or the
`<p>Error loading history</p>` message written by the `catch` branch. -/
inductive HistoryContent
  | noHistory
  | items (l : List RenderedHistoryItem)
  | errorMsg
deriving DecidableEq, Repr

/-- The URL built by `loadHistory` from the two date inputs: the query string
is appended only when both are truthy (non-empty). -/
def historyUrl (startDate endDate : String) : String :=
  "/api/daily/" ++
    (if startDate ≠ "" ∧ endDate ≠ "" then
      "?start_date=" ++ startDate ++ "&end_date=" ++ endDate
     else "")

/-- `loadHistory()`: on success renders the empty state for a zero-length
array and one row per item otherwise; a non-2xx response runs no assignment;
an exception writes the error message.  No branch calls `showToast`. -/
def loadHistory (fmt : String → String) (o : ReadOutcome (List HistoryItem)) :
    Option HistoryContent × List ToastCall :=
  match o with
  | .success h =>
      (some (if h.length = 0 then .noHistory else .items (h.map (renderHistoryItem fmt))), [])
  | .httpError => (none, [])
  | .networkThrow => (some .errorMsg, [])

/-! ### Progress bars and `toFixed(1)` -/

/-- JS `Number.prototype.toFixed(1)` for a non-negative value: per the
ECMAScript algorithm, pick the integer n with n / 10 closest to the value,
the larger n on a tie, and print it with one decimal digit. -/
def toFixed1abs (q : ℚ) : String :=
  let n : Nat := (⌊q * 10 + 1 / 2⌋).toNat
  toString (n / 10) ++ "." ++ toString (n % 10)

/-- JS `toFixed(1)`: a negative value is formatted as the sign followed by
the formatting of its negation. -/
def toFixed1 (q : ℚ) : String :=
  if q < 0 then "-" ++ toFixed1abs (-q) else toFixed1abs q

/-- One labelled progress bar: the `<small>` label text and the CSS width
percentage of the `.progress-fill` div. -/
structure Bar where
  label : String
  width : ℚ
deriving DecidableEq, Repr

/-- One bar of a report card: label
`` `NAME: ${p.toFixed(1)}%` `` and width `` `${Math.min(p, 100)}%` ``. -/
def mkBar (name : String) (p : ℚ) : Bar :=
  { label := name ++ ": " ++ toFixed1 p ++ "%", width := min p 100 }

/-! ### `loadWeeklyReports` (`GET /api/weekly/`, script.js lines 236-275) -/

/-- One weekly report returned by `GET /api/weekly/`. -/
structure WeeklyReport where
  week_number : Int
  year : Int
  start_date : String
  end_date : String
  total_score : ℚ
  gym_percentage : ℚ
  dsa_percentage : ℚ
  ml_percentage : ℚ
  django_percentage : ℚ
  sql_percentage : ℚ
  project_percentage : ℚ
  aws_percentage : ℚ
deriving DecidableEq, Repr

/-- One rendered weekly report card. -/
structure RenderedWeeklyReport where
  week_number : Int
  year : Int
  startText : String
  endText : String
  scoreText : String
  bars : List Bar
deriving DecidableEq, Repr

/-- Rendering of one weekly report card; `fmt` is the host's
`toLocaleDateString` formatting of the range endpoints. -/
def renderWeeklyReport (fmt : String → String) (r : WeeklyReport) : RenderedWeeklyReport :=
  { week_number := r.week_number, year := r.year,
    startText := fmt r.start_date, endText := fmt r.end_date,
    scoreText := toFixed1 r.total_score ++ "%",
    bars :=
      [mkBar "GYM" r.gym_percentage, mkBar "DSA" r.dsa_percentage,
       mkBar "ML" r.ml_percentage, mkBar "Django" r.django_percentage,
       mkBar "SQL" r.sql_percentage, mkBar "Project" r.project_percentage,
       mkBar "AWS" r.aws_percentage] }

/-- Content the `#weeklyReports` region can be assigned. -/
inductive WeeklyContent
  | noReports
  | reports (l : List RenderedWeeklyReport)
  | loadingMsg
deriving DecidableEq, Repr

/-- `loadWeeklyReports()`: empty state for a zero-length array, one card per
report otherwise; a non-2xx response runs no assignment; an exception writes
the `<p>Loading...</p>` placeholder.  No branch calls `showToast`. -/
def loadWeeklyReports (fmt : String → String) (o : ReadOutcome (List WeeklyReport)) :
    Option WeeklyContent × List ToastCall :=
  match o with
  | .success rs =>
      (some (if rs.length = 0 then .noReports else .reports (rs.map (renderWeeklyReport fmt))), [])
  | .httpError => (none, [])
  | .networkThrow => (some .loadingMsg, [])

/-! ### `loadMonthlyReports` (`GET /api/monthly/`, script.js lines 277-314) -/

/-- One monthly report returned by `GET /api/monthly/`. -/
structure MonthlyReport where
  year : Int
  month : Int
  total_days_tracked : Int
  avg_gym : ℚ
  avg_dsa : ℚ
  avg_ml : ℚ
  avg_django : ℚ
  avg_sql : ℚ
  avg_project : ℚ
  avg_aws : ℚ
deriving DecidableEq, Repr

/-- One rendered monthly report card. -/
structure RenderedMonthlyReport where
  monthText : String
  year : Int
  total_days_tracked : Int
  bars : List Bar
deriving DecidableEq, Repr

/-- Rendering of one monthly report card; `fmtMonth` is the host's month-name
formatting of `new Date(report.year, report.month - 1)`. -/
def renderMonthlyReport (fmtMonth : Int → Int → String) (r : MonthlyReport) :
    RenderedMonthlyReport :=
  { monthText := fmtMonth r.year (r.month - 1), year := r.year,
    total_days_tracked := r.total_days_tracked,
    bars :=
      [mkBar "GYM" r.avg_gym, mkBar "DSA" r.avg_dsa,
       mkBar "ML" r.avg_ml, mkBar "Django" r.avg_django,
       mkBar "SQL" r.avg_sql, mkBar "Project" r.avg_project,
       mkBar "AWS" r.avg_aws] }

/-- Content the `#monthlyReports` region can be assigned. -/
inductive MonthlyContent
  | noReports
  | reports (l : List RenderedMonthlyReport)
  | loadingMsg
deriving DecidableEq, Repr

/-- `loadMonthlyReports()`: structurally identical to `loadWeeklyReports`. -/
def loadMonthlyReports (fmtMonth : Int → Int → String)
    (o : ReadOutcome (List MonthlyReport)) : Option MonthlyContent × List ToastCall :=
  match o with
  | .success rs =>
      (some (if rs.length = 0 then .noReports
             else .reports (rs.map (renderMonthlyReport fmtMonth))), [])
  | .httpError => (none, [])
  | .networkThrow => (some .loadingMsg, [])

/-! ### Tab switcher (`switchTab`, script.js lines 316-327) -/

/-- One `.tab-btn` element: its `data-tab` attribute and whether its class
list carries `active`. -/
structure TabButton where
  dataTab : String
  active : Bool
deriving DecidableEq, Repr

/-- One `.tab-content` element: its `id` and whether its class list carries
`active`. -/
structure TabPanel where
  id : String
  active : Bool
deriving DecidableEq, Repr

/-- The tab-related document state: all `.tab-btn` elements, all
`.tab-content` elements, and the module-global `currentTab`. -/
structure TabState where
  buttons : List TabButton
  panels : List TabPanel
  currentTab : String
deriving DecidableEq, Repr

/-- `switchTab(tab)`: early return when `currentTab === tab`; otherwise each
button gets `active` removed and re-added exactly when its `data-tab` equals
`tab`, each panel gets `active` removed and re-added exactly when its `id`
equals `` `${tab}Tab` ``, and `currentTab` is set to `tab`. -/
def switchTab (s : TabState) (tab : String) : TabState :=
  if s.currentTab = tab then s
  else
    { buttons := s.buttons.map fun b => { b with active := b.dataTab == tab },
      panels := s.panels.map fun p => { p with active := p.id == tab ++ "Tab" },
      currentTab := tab }

/-- Modelled from the spec: the tab DOM template (`index.html` is not part of
the provided source).  Three mutually exclusive named views `weekly`,
`monthly`, `history`; each has one tab-selector button keyed by `data-tab`
and one content panel whose id is the view name followed by `Tab`. -/
def tabNames : List String := ["weekly", "monthly", "history"]

/-- A concrete tab document state matching the spec's template, with the
default `weekly` view active. -/
def tabFixture : TabState :=
  { buttons :=
      [{ dataTab := "weekly", active := true },
       { dataTab := "monthly", active := false },
       { dataTab := "history", active := false }],
    panels :=
      [{ id := "weeklyTab", active := true },
       { id := "monthlyTab", active := false },
       { id := "historyTab", active := false }],
    currentTab := "weekly" }

/-! ### Notification display (`showToast`, script.js lines 339-359) -/

/-- The `#toast` element state: the message span text, the icon element's
class, the inline background colour, whether the class list carries `show`,
and the pending `setTimeout` hide callbacks (as absolute fire times, one per
`showToast` call, never cancelled). -/
structure ToastState where
  message : String
  iconClass : String
  background : String
  showClass : Bool
  timers : List Nat
deriving DecidableEq, Repr

/-- Icon class set per severity. -/
def iconClassFor : ToastType → String
  | .success => "toast-icon fas fa-check-circle"
  | .error => "toast-icon fas fa-exclamation-circle"
  | .info => "toast-icon fas fa-info-circle"

/-- Background colour set per severity. -/
def backgroundFor : ToastType → String
  | .success => "#48bb78"
  | .error => "#f56565"
  | .info => "#2d3748"

/-- `showToast(message, type)` called at time `now` (milliseconds): overwrite
text, icon class and background, add the `show` class, and schedule one more
hide callback at `now + 3000`; previously scheduled callbacks stay pending. -/
def showToast (now : Nat) (message : String) (ty : ToastType) (s : ToastState) : ToastState :=
  { message := message, iconClass := iconClassFor ty, background := backgroundFor ty,
    showClass := true, timers := s.timers ++ [now + 3000] }

/-- Run every hide callback due by time `now`: each one removes the `show`
class (removing an absent class is a no-op), and fired timers are no longer
pending. -/
def fireDue (now : Nat) (s : ToastState) : ToastState :=
  { s with
    showClass := if s.timers.any fun t => decide (t ≤ now) then false else s.showClass,
    timers := s.timers.filter fun t => decide (now < t) }

/-- The toast element before any call. -/
def initialToast : ToastState :=
  { message := "", iconClass := "", background := "", showClass := false, timers := [] }

/-- Process one timestamped `showToast` call: hide callbacks due by the call
time fire first (the event loop runs them before later events), then the call
runs. -/
def stepCall (s : ToastState) (c : Nat × String × ToastType) : ToastState :=
  showToast c.1 c.2.1 c.2.2 (fireDue c.1 s)

/-- Toast state observed at time `T`, given the timestamped `showToast` calls
of the page (assumed in ascending time order): the calls made by time `T`
run in order, then every hide callback due by `T` fires. -/
def toastAt (calls : List (Nat × String × ToastType)) (T : Nat) : ToastState :=
  fireDue T ((calls.filter fun c => decide (c.1 ≤ T)).foldl stepCall initialToast)

/-- Concrete timeline for the retrigger scenario: a first toast at t = 0 ms
and a second one at t = 2000 ms, while the first hide callback is due at
t = 3000 ms. -/
def demoCalls : List (Nat × String × ToastType) :=
  [(0, "first", .error), (2000, "second", .success)]

/-! ### Date info (`updateDateInfo`, script.js lines 34-51) and auto-refresh -/

/-- The week number computed by `updateDateInfo`:
`Math.ceil((days + startDate.getDay() + 1) / 7)` where `days` is
`Math.floor((now - startDate) / (24*60*60*1000))` for `startDate` =
January 1st of the current year, and `getDay()` is the weekday index with
0 = Sunday.  The two inputs are taken as given since they come from the host
clock. -/
def weekNumber (days jan1Weekday : Nat) : Int :=
  ⌈(((days : ℚ) + jan1Weekday + 1) / 7)⌉

/-- The operations re-triggered by the `setInterval` at the bottom of the
script. -/
def autoRefreshOps : List ReadOp := [.todayStatus, .stats]

/-- The `setInterval` period in milliseconds. -/
def autoRefreshIntervalMs : Nat := 30000

/-! ### Theorems -/

/-- C1: a daily-entry submission that fails preserves the form and triggers
no reads: a non-2xx response whose body carries `detail = d` shows an error
toast whose message contains `d` (and for the body
`{"detail":"Entry already exists"}` the message is exactly
`Error: Entry already exists`); a transport failure shows the fixed
network-error toast; in both cases the checkboxes keep their pre-submission
values and the list of triggered read operations is empty. -/
theorem submit_failure_preserves_form (pre : Checkboxes) (d : String) :
    (dailyFormSubmit pre (.errResponse (some d))).toast.ty = .error ∧
    d.data <:+: (dailyFormSubmit pre (.errResponse (some d))).toast.message.data ∧
    (dailyFormSubmit pre (.errResponse (some d))).checkboxes = pre ∧
    (dailyFormSubmit pre (.errResponse (some d))).reads = [] ∧
    dailyFormSubmit pre .throws =
      { toast := { message := "Network error. Please check if server is running.",
                   ty := .error },
        checkboxes := pre, reads := [] } ∧
    (dailyFormSubmit pre (.errResponse (some "Entry already exists"))).toast.message =
      "Error: Entry already exists" := by
  refine ⟨rfl, ⟨"Error: ".data, [], ?_⟩, rfl, rfl, rfl, rfl⟩
  simp [dailyFormSubmit, jsField, String.data_append]

/-- C2 (counterexample): not every failed read renders an error state into
its region.  A transport failure in `loadTodayStatus` writes nothing to
`#todayStatus` (its `catch` only logs), and a non-2xx response in
`loadStats` writes nothing to `#stats` (there is no `else` branch). -/
theorem read_failure_renders_counterexample :
    (loadTodayStatus clearForm ReadOutcome.networkThrow).region = none ∧
    (loadStats ReadOutcome.httpError).fst = none :=
  ⟨rfl, rfl⟩

/-- C2 (amended): no failed read triggers a notification.  On a transport
failure the stats, weekly-reports and monthly-reports regions render the
`Loading...` placeholder, the history region renders the
`Error loading history` message, and the today-status region is left
unwritten; on a non-2xx response every one of the five reads leaves its
region unwritten. -/
theorem read_failure_regions (pre : Checkboxes) (fmtD : String → String)
    (fmtM : Int → Int → String) :
    loadStats .networkThrow = (some .loadingMsg, []) ∧
    loadStats .httpError = (none, []) ∧
    loadWeeklyReports fmtD .networkThrow = (some .loadingMsg, []) ∧
    loadWeeklyReports fmtD .httpError = (none, []) ∧
    loadMonthlyReports fmtM .networkThrow = (some .loadingMsg, []) ∧
    loadMonthlyReports fmtM .httpError = (none, []) ∧
    loadHistory fmtD .networkThrow = (some .errorMsg, []) ∧
    loadHistory fmtD .httpError = (none, []) ∧
    loadTodayStatus pre .networkThrow = { region := none, checkboxes := pre, toasts := [] } ∧
    loadTodayStatus pre .httpError = { region := none, checkboxes := pre, toasts := [] } :=
  ⟨rfl, rfl, rfl, rfl, rfl, rfl, rfl, rfl, rfl, rfl⟩

/-- C3: on a successful `/api/today` response, the seven form checkboxes end
equal to the payload booleans when `exists` is true, and all end unchecked
(`clearForm`, i.e. seven times `false`) when `exists` is false, regardless of
the booleans in the payload. -/
theorem todayStatus_checkboxes (pre : Checkboxes) (d : TodayData) :
    (loadTodayStatus pre (.success d)).checkboxes =
      (if d.exists' then
        { gym := d.gym, dsa := d.dsa, ml := d.ml, django := d.django, sql := d.sql,
          project_work := d.project_work, aws := d.aws }
       else clearForm) ∧
    clearForm = { gym := false, dsa := false, ml := false, django := false, sql := false,
                  project_work := false, aws := false } :=
  ⟨rfl, rfl⟩

/-- C4: a submission that receives a 2xx response shows the success toast,
resets all seven checkboxes to unchecked, and triggers the five read
operations: today's status, stats, weekly reports, monthly reports,
history. -/
theorem submit_success_resets_and_reloads (pre : Checkboxes) :
    dailyFormSubmit pre .ok2xx =
      { toast := { message := "Checklist saved successfully!", ty := .success },
        checkboxes := clearForm,
        reads := [.todayStatus, .stats, .weekly, .monthly, .history] } ∧
    clearForm = { gym := false, dsa := false, ml := false, django := false, sql := false,
                  project_work := false, aws := false } :=
  ⟨rfl, rfl⟩

/-- C10: whenever `loadTodayStatus` succeeds with `exists = false` — the
30-second auto-refresh interval triggers it unconditionally — the form is
cleared: whatever checkbox selections were pending, the checkboxes end in the
all-unchecked `clearForm` state rather than being left untouched. -/
theorem today_refresh_discards_unsaved (pre : Checkboxes) (d : TodayData)
    (h : d.exists' = false) :
    (loadTodayStatus pre (.success d)).checkboxes = clearForm ∧
    ReadOp.todayStatus ∈ autoRefreshOps ∧
    autoRefreshIntervalMs = 30000 := by
  refine ⟨?_, by decide, rfl⟩
  simp [loadTodayStatus, h]

/-- Witness for C10 at a concrete input: every checkbox is selected but the
refreshed `/api/today` answer has `exists = false`, so the form ends
cleared. -/
theorem today_refresh_discards_unsaved_witness :
    (loadTodayStatus
      { gym := true, dsa := true, ml := true, django := true, sql := true,
        project_work := true, aws := true }
      (ReadOutcome.success
        { gym := false, dsa := false, ml := false, django := false, sql := false,
          project_work := false, aws := false, exists' := false })).checkboxes = clearForm ∧
    ReadOp.todayStatus ∈ autoRefreshOps ∧
    autoRefreshIntervalMs = 30000 :=
  today_refresh_discards_unsaved _ _ rfl

/-- Evaluation of the JS `toFixed(1)` model at 150. -/
theorem toFixed1_at_150 : toFixed1 150 = "150.0" := by
  have h : (⌊(150 : ℚ) * 10 + 1 / 2⌋) = 1500 := by norm_num
  simp only [toFixed1, toFixed1abs, h]
  rfl

/-- C5: in every rendered weekly and monthly report card the seven bars are
built by `mkBar`, whose width is `Math.min(p, 100)` while its label shows the
unclamped value formatted with `toFixed(1)`; in particular `p = 150` gives a
bar of width 100 labelled `GYM: 150.0%`. -/
theorem report_bars_clamped (fmtD : String → String) (fmtM : Int → Int → String)
    (r : WeeklyReport) (m : MonthlyReport) (name : String) (p : ℚ) :
    (renderWeeklyReport fmtD r).bars =
      [mkBar "GYM" r.gym_percentage, mkBar "DSA" r.dsa_percentage,
       mkBar "ML" r.ml_percentage, mkBar "Django" r.django_percentage,
       mkBar "SQL" r.sql_percentage, mkBar "Project" r.project_percentage,
       mkBar "AWS" r.aws_percentage] ∧
    (renderMonthlyReport fmtM m).bars =
      [mkBar "GYM" m.avg_gym, mkBar "DSA" m.avg_dsa,
       mkBar "ML" m.avg_ml, mkBar "Django" m.avg_django,
       mkBar "SQL" m.avg_sql, mkBar "Project" m.avg_project,
       mkBar "AWS" m.avg_aws] ∧
    (mkBar name p).width = min p 100 ∧
    (mkBar name p).label = name ++ ": " ++ toFixed1 p ++ "%" ∧
    (mkBar "GYM" (150 : ℚ)).width = 100 ∧
    (mkBar "GYM" (150 : ℚ)).label = "GYM: 150.0%" := by
  refine ⟨rfl, rfl, rfl, rfl, ?_, ?_⟩
  · show min (150 : ℚ) 100 = 100
    norm_num
  · show "GYM" ++ ": " ++ toFixed1 150 ++ "%" = "GYM: 150.0%"
    rw [toFixed1_at_150]
    rfl

/-- Closed form of the ceiling division by 7 used by the week-number
formula. -/
theorem ceil_div_seven (n : Nat) : ⌈((n : ℚ)) / 7⌉ = (((n + 6) / 7 : Nat) : Int) := by
  have h7 : (0 : ℚ) < 7 := by norm_num
  have h1 : ((n + 6) / 7) * 7 ≤ n + 6 := by omega
  have h2 : n ≤ ((n + 6) / 7) * 7 := by omega
  rw [Int.ceil_eq_iff]
  constructor
  · rw [sub_lt_iff_lt_add, show ((n : ℚ) / 7 + 1) = ((n : ℚ) + 7) / 7 by ring,
      lt_div_iff₀ h7]
    have h1q : ((((n + 6) / 7 : Nat) : Int) : ℚ) * 7 ≤ (n : ℚ) + 6 := by exact_mod_cast h1
    linarith
  · rw [div_le_iff₀ h7]
    exact_mod_cast h2

/-- C7: the rendered week number equals
`ceil((dayOfYear + Jan1Weekday + 1) / 7)` where `dayOfYear` is the number of
whole days elapsed since January 1st and `Jan1Weekday` is January 1st's
weekday index with 0 = Sunday; equivalently, it is the natural number
`(dayOfYear + Jan1Weekday + 1 + 6) / 7`. -/
theorem weekNumber_eq_ceil (days jan1Weekday : Nat) :
    weekNumber days jan1Weekday = ⌈(((days + jan1Weekday + 1 : Nat) : ℚ)) / 7⌉ ∧
    weekNumber days jan1Weekday = (((days + jan1Weekday + 1 + 6) / 7 : Nat) : Int) := by
  have hcast : (((days + jan1Weekday + 1 : Nat) : ℚ)) = (days : ℚ) + jan1Weekday + 1 := by
    push_cast
    ring
  constructor
  · rw [weekNumber, hcast]
  · rw [weekNumber, ← hcast, ceil_div_seven]

/-- C8: each `showToast` call overwrites text, icon class and background,
re-adds the `show` class, and appends its own hide callback at `now + 3000`
without cancelling the previously pending ones; on the concrete timeline of
`demoCalls` (first toast at 0 ms, second at 2000 ms) the toast is still
visible at 2999 ms showing the second message, and at 3000 ms the first
call's callback fires and hides it, although the second toast has then been
visible for only 1000 ms. -/
theorem toast_hide_timers (now : Nat) (msg : String) (ty : ToastType) (s : ToastState) :
    showToast now msg ty s =
      { message := msg, iconClass := iconClassFor ty, background := backgroundFor ty,
        showClass := true, timers := s.timers ++ [now + 3000] } ∧
    (toastAt demoCalls 2999).showClass = true ∧
    (toastAt demoCalls 2999).message = "second" ∧
    (toastAt demoCalls 3000).showClass = false ∧
    (toastAt demoCalls 3000).message = "second" ∧
    3000 - 2000 < 3000 :=
  ⟨rfl, rfl, rfl, rfl, rfl, by decide⟩

/-- After a switch, the active buttons are exactly those whose `data-tab`
equals the requested tab. -/
theorem filter_active_buttons (l : List TabButton) (tab : String) :
    ((l.map fun b => { b with active := b.dataTab == tab }).filter
        fun b => b.active).map TabButton.dataTab
      = (l.map TabButton.dataTab).filter fun x => x == tab := by
  induction l with
  | nil => rfl
  | cons b t ih =>
    by_cases h : b.dataTab == tab <;> simp [h, ih]

/-- After a switch, the active panels are exactly those whose `id` equals the
requested tab followed by `Tab`. -/
theorem filter_active_panels (l : List TabPanel) (tab : String) :
    ((l.map fun p => { p with active := p.id == tab ++ "Tab" }).filter
        fun p => p.active).map TabPanel.id
      = (l.map TabPanel.id).filter fun x => x == tab ++ "Tab" := by
  induction l with
  | nil => rfl
  | cons p t ih =>
    by_cases h : p.id == tab ++ "Tab" <;> simp [h, ih]

/-- C6: `switchTab` with the current tab is a no-op (the early return fires
before any class is touched); `switchTab` with one of the three view names
different from the current tab leaves exactly one button active — the one
whose `data-tab` is the requested tab — and exactly one panel active — the
one whose id is the tab name followed by `Tab` — and records the new current
tab. -/
theorem switchTab_exclusive (s : TabState) (tab : String)
    (hb : s.buttons.map TabButton.dataTab = tabNames)
    (hp : s.panels.map TabPanel.id = tabNames.map fun t => t ++ "Tab")
    (ht : tab ∈ tabNames) (hne : s.currentTab ≠ tab) :
    switchTab s s.currentTab = s ∧
    ((switchTab s tab).buttons.filter fun b => b.active).map TabButton.dataTab = [tab] ∧
    ((switchTab s tab).panels.filter fun p => p.active).map TabPanel.id = [tab ++ "Tab"] ∧
    (switchTab s tab).currentTab = tab := by
  have hbtn : ((switchTab s tab).buttons.filter fun b => b.active).map TabButton.dataTab
      = tabNames.filter fun x => x == tab := by
    simp only [switchTab, if_neg hne]
    rw [filter_active_buttons, hb]
  have hpan : ((switchTab s tab).panels.filter fun p => p.active).map TabPanel.id
      = (tabNames.map fun t => t ++ "Tab").filter fun x => x == tab ++ "Tab" := by
    simp only [switchTab, if_neg hne]
    rw [filter_active_panels, hp]
  refine ⟨by simp [switchTab], ?_, ?_, by simp [switchTab, if_neg hne]⟩
  · rw [hbtn]
    fin_cases ht <;> decide
  · rw [hpan]
    fin_cases ht <;> decide

/-- Witness for C6 at a concrete input: switching the fixture from the
default `weekly` view to `monthly`. -/
theorem switchTab_exclusive_witness :
    switchTab tabFixture tabFixture.currentTab = tabFixture ∧
    ((switchTab tabFixture "monthly").buttons.filter fun b => b.active).map
        TabButton.dataTab = ["monthly"] ∧
    ((switchTab tabFixture "monthly").panels.filter fun p => p.active).map
        TabPanel.id = ["monthly" ++ "Tab"] ∧
    (switchTab tabFixture "monthly").currentTab = "monthly" :=
  switchTab_exclusive tabFixture "monthly" (by decide) (by decide) (by decide) (by decide)

/-- C9: `switchTab` with a name that differs from the current tab, matches no
button's `data-tab`, and matches no panel's id leaves every button and every
panel without the active class, and sets `currentTab` to that name, so an
immediately repeated call with the same name is a no-op. -/
theorem switchTab_unknown_deactivates_all (s : TabState) (tab : String)
    (hb : ∀ b ∈ s.buttons, b.dataTab ≠ tab)
    (hp : ∀ p ∈ s.panels, p.id ≠ tab ++ "Tab")
    (hne : s.currentTab ≠ tab) :
    ((switchTab s tab).buttons.all fun b => !b.active) = true ∧
    ((switchTab s tab).panels.all fun p => !p.active) = true ∧
    (switchTab s tab).currentTab = tab ∧
    switchTab (switchTab s tab) tab = switchTab s tab := by
  have hcur : (switchTab s tab).currentTab = tab := by
    simp [switchTab, if_neg hne]
  refine ⟨?_, ?_, hcur, ?_⟩
  · simp only [switchTab, if_neg hne, List.all_eq_true, List.mem_map]
    rintro b ⟨x, hx, rfl⟩
    simpa using hb x hx
  · simp only [switchTab, if_neg hne, List.all_eq_true, List.mem_map]
    rintro p ⟨x, hx, rfl⟩
    simpa using hp x hx
  · show (if (switchTab s tab).currentTab = tab then switchTab s tab else _)
        = switchTab s tab
    rw [if_pos hcur]

/-- Witness for C9 at a concrete input: switching the fixture to the name
`bogus`, which matches no button and no panel. -/
theorem switchTab_unknown_witness :
    ((switchTab tabFixture "bogus").buttons.all fun b => !b.active) = true ∧
    ((switchTab tabFixture "bogus").panels.all fun p => !p.active) = true ∧
    (switchTab tabFixture "bogus").currentTab = "bogus" ∧
    switchTab (switchTab tabFixture "bogus") "bogus" = switchTab tabFixture "bogus" :=
  switchTab_unknown_deactivates_all tabFixture "bogus" (by decide) (by decide) (by decide)

end DailyTracker
